import Mathlib

/-!
# oglcxx: capability dispatch, bind bracket, context registry and mapped view

A shallow embedding of `include/ogl/ogl.h`.  Driver entry points (GLEW / OpenGL)
are external to the header; the few that the header calls are modelled below on an
explicit driver state, following the OpenGL 4.5 description of each call.
-/

namespace ogl

/-! ## Scalar types and constants taken from the driver headers -/

abbrev GLenum := Nat
abbrev GLuint := Nat
abbrev GLint := Int
abbrev GLsizei := Int

/-- A `void*` value; `0` is `nullptr`. -/
abbrev VoidPtr := Nat

def nullptr : VoidPtr := 0

/-- Constant `GLEW_OK` of `GL/glew.h`. -/
def GLEW_OK : GLenum := 0

def GL_FALSE : GLint := 0
def GL_TRUE : GLint := 1

def GL_READ_ONLY : GLenum := 0x88B8
def GL_WRITE_ONLY : GLenum := 0x88B9
def GL_READ_WRITE : GLenum := 0x88BA

/-- The buffer targets of `enum : GLenum` (lines 10-26) at which `buffer<bufferType>` is
instantiated by the aliases of lines 258-271.  `BUFFER_TYPE_UNUSED` (value 0) is not a
binding point of the driver and has no alias; it is left out of the target type. -/
inductive buffer_type where
  | BUFFER_TYPE_ARRAY
  | BUFFER_TYPE_ATOMIC_COUNTER
  | BUFFER_TYPE_COPY_READ
  | BUFFER_TYPE_COPY_WRITE
  | BUFFER_TYPE_DISPATCH_INDIRECT
  | BUFFER_TYPE_DRAW_INDIRECT
  | BUFFER_TYPE_ELEMENT_ARRAY
  | BUFFER_TYPE_PIXEL_PACK
  | BUFFER_TYPE_PIXEL_UNPACK
  | BUFFER_TYPE_QUERY
  | BUFFER_TYPE_SHADER_STORAGE
  | BUFFER_TYPE_TEXTURE
  | BUFFER_TYPE_TRANSFORM_FEEDBACK
  | BUFFER_TYPE_UNIFORM
  deriving DecidableEq, Repr

open buffer_type

/-- The capability flags GLEW publishes after `glewInit()`. -/
structure Caps where
  GLEW_VERSION_4_5 : Bool
  GLEW_EXT_direct_state_access : Bool
  deriving DecidableEq, Repr

/-- The three static member functions of `_buffer` whose address `init()` can store in
`_buffer::_map_func_ptr` (lines 141-143). -/
inductive map_func where
  | _map_func_4_5
  | _map_func_ext
  | _map_func_fallback
  deriving DecidableEq, Repr

/-! ## Capability-dispatch initialisation (lines 274-291) -/

/-- Embeds `ogl::init()`.  `err` is what `glewInit()` returned, `caps` the flags it published,
`_map_func_ptr` the value of the static pointer before the call (`none` when it was never
assigned).  The result is the returned code and the pointer after the call. -/
def init (err : GLenum) (caps : Caps) (_map_func_ptr : Option map_func) :
    GLenum × Option map_func :=
  if err ≠ GLEW_OK then
    (err, _map_func_ptr)
  else if caps.GLEW_VERSION_4_5 then
    (err, some map_func._map_func_4_5)
  else if caps.GLEW_EXT_direct_state_access then
    (err, some map_func._map_func_ext)
  else
    (err, some map_func._map_func_fallback)

/-! ## Driver model

The state of the external driver that the header reads and writes, and the driver calls
the header issues.  Each call follows the OpenGL description of its effect on the buffer
binding points and on the `GL_BUFFER_MAPPED` flag of buffer objects. -/

/-- Driver state: the buffer name bound to each target, the `GL_BUFFER_MAPPED` flag of each
buffer name, the names handed out so far, and the address at which the driver maps the
data store of each buffer name (`0` when it cannot map it). -/
structure GLState where
  bound : buffer_type → GLuint
  mapped : GLuint → Bool
  names : List GLuint
  dataStore : GLuint → VoidPtr

/-- Driver call `glGenBuffers(1, &name)`: hands out a non-zero name that was not handed out before. -/
def glGenBuffers (s : GLState) : GLuint × GLState :=
  let name := s.names.foldr max 0 + 1
  (name, { s with names := name :: s.names })

/-- Driver call `glBindBuffer(target, name)`. -/
def glBindBuffer (target : buffer_type) (name : GLuint) (s : GLState) : GLState :=
  { s with bound := fun t => if t = target then name else s.bound t }

/-- Driver call `glGetIntegerv(GL_<type>_BUFFER_BINDING, &out)`: the name bound to that target. -/
def glGetIntegerv_BUFFER_BINDING (target : buffer_type) (s : GLState) : GLuint :=
  s.bound target

/-- Driver call `glGetNamedBufferParameteriv(name, GL_BUFFER_MAPPED, &out)`, also its `EXT` form. -/
def glGetNamedBufferParameteriv_BUFFER_MAPPED (name : GLuint) (s : GLState) : GLint :=
  if s.mapped name then GL_TRUE else GL_FALSE

/-- Driver call `glGetBufferParameteriv(target, GL_BUFFER_MAPPED, &out)`: the flag of the buffer
bound to `target`. -/
def glGetBufferParameteriv_BUFFER_MAPPED (target : buffer_type) (s : GLState) : GLint :=
  if s.mapped (s.bound target) then GL_TRUE else GL_FALSE

/-- Driver call `glUnmapBuffer(target)`: releases the mapping of the buffer bound to `target`. -/
def glUnmapBuffer (target : buffer_type) (s : GLState) : GLState :=
  { s with mapped := fun n => if n = s.bound target then false else s.mapped n }

/-- Driver call `glMapNamedBuffer(name, access)`, also its `EXT` form: fails on name 0, on a buffer that
is already mapped and on a data store the driver cannot map; otherwise marks the buffer
mapped and returns the address of its data store. -/
def glMapNamedBuffer (name : GLuint) (_access : GLenum) (s : GLState) : VoidPtr × GLState :=
  if name = 0 ∨ s.mapped name = true ∨ s.dataStore name = nullptr then
    (nullptr, s)
  else
    (s.dataStore name, { s with mapped := fun n => if n = name then true else s.mapped n })

/-- Driver call `glMapBuffer(target, access)`: as `glMapNamedBuffer` on the buffer bound to `target`. -/
def glMapBuffer (target : buffer_type) (access : GLenum) (s : GLState) : VoidPtr × GLState :=
  glMapNamedBuffer (s.bound target) access s

/-! ## Mapping strategies (declared at lines 140-143) -/

/-- The signature of `_buffer::_map_func_ptr`, acting on the driver state. -/
abbrev MapFunc := buffer_type → GLuint → GLenum → GLState → VoidPtr × GLState

/-- Modelled from the spec: the body of `_buffer::_map_func_4_5` is not in the header.
Tier 1 "maps directly by device identity, independent of any global binding point; does
not disturb any currently bound buffer at that target". -/
def _buffer._map_func_4_5 : MapFunc :=
  fun _bufferType bufObj access s => glMapNamedBuffer bufObj access s

/-- Modelled from the spec: the body of `_buffer::_map_func_ext` is not in the header.
Tier 2 has the "same contract via the optional-extension entry point; also
binding-independent". -/
def _buffer._map_func_ext : MapFunc :=
  fun _bufferType bufObj access s => glMapNamedBuffer bufObj access s

/-- Modelled from the spec: the body of `_buffer::_map_func_fallback` is not in the header.
Tier 3 "must first bind the buffer to its target's global binding point, perform the
legacy target-based map call, and the caller is responsible for eventually unbinding".
The function is static, so it has no previously-bound slot to save into. -/
def _buffer._map_func_fallback : MapFunc :=
  fun bufferType bufObj access s => glMapBuffer bufferType access (glBindBuffer bufferType bufObj s)

/-- The function a stored pointer value designates. -/
def map_func.deref : map_func → MapFunc
  | ._map_func_4_5 => _buffer._map_func_4_5
  | ._map_func_ext => _buffer._map_func_ext
  | ._map_func_fallback => _buffer._map_func_fallback

/-! ## Buffer objects (lines 146-256) -/

/-- Embeds `class buffer<bufferType>`: `_obj` inherited from `_object`, and `_lastBound`. -/
structure buffer (bufferType : buffer_type) where
  _obj : GLuint := 0
  _lastBound : GLuint := 0
  deriving DecidableEq, Repr

/-- Embeds `buffer::buffer()` (lines 156-159). -/
def buffer.ctor (bufferType : buffer_type) (s : GLState) : buffer bufferType × GLState :=
  let (name, s1) := glGenBuffers s
  ({ _obj := name, _lastBound := 0 }, glBindBuffer bufferType name s1)

/-- Embeds `buffer::_bind()` (lines 182-198).  The `switch` is on the template parameter (the
header spells it `_bufferType`); only the nine listed targets have a case. -/
def buffer._bind {bufferType : buffer_type} (self : buffer bufferType) (s : GLState) :
    buffer bufferType × GLState :=
  let _lastBound : GLuint :=
    match bufferType with
    | BUFFER_TYPE_ARRAY => glGetIntegerv_BUFFER_BINDING BUFFER_TYPE_ARRAY s
    | BUFFER_TYPE_DISPATCH_INDIRECT => glGetIntegerv_BUFFER_BINDING BUFFER_TYPE_DISPATCH_INDIRECT s
    | BUFFER_TYPE_ELEMENT_ARRAY => glGetIntegerv_BUFFER_BINDING BUFFER_TYPE_ELEMENT_ARRAY s
    | BUFFER_TYPE_PIXEL_PACK => glGetIntegerv_BUFFER_BINDING BUFFER_TYPE_PIXEL_PACK s
    | BUFFER_TYPE_PIXEL_UNPACK => glGetIntegerv_BUFFER_BINDING BUFFER_TYPE_PIXEL_UNPACK s
    | BUFFER_TYPE_SHADER_STORAGE => glGetIntegerv_BUFFER_BINDING BUFFER_TYPE_SHADER_STORAGE s
    | BUFFER_TYPE_TEXTURE => glGetIntegerv_BUFFER_BINDING BUFFER_TYPE_TEXTURE s
    | BUFFER_TYPE_TRANSFORM_FEEDBACK =>
        glGetIntegerv_BUFFER_BINDING BUFFER_TYPE_TRANSFORM_FEEDBACK s
    | BUFFER_TYPE_UNIFORM => glGetIntegerv_BUFFER_BINDING BUFFER_TYPE_UNIFORM s
    | _ => self._lastBound
  ({ self with _lastBound := _lastBound }, glBindBuffer bufferType self._obj s)

/-- Embeds `buffer::_unbind()` (lines 200-202). -/
def buffer._unbind {bufferType : buffer_type} (self : buffer bufferType) (s : GLState) :
    GLState :=
  glBindBuffer bufferType self._lastBound s

/-- Embeds `buffer::is_mapped()` (lines 204-220): the answer, the object afterwards (its
previously-bound slot may have been written) and the driver state afterwards. -/
def buffer.is_mapped {bufferType : buffer_type} (caps : Caps) (self : buffer bufferType)
    (s : GLState) : Bool × buffer bufferType × GLState :=
  if caps.GLEW_VERSION_4_5 then
    let paramValue := glGetNamedBufferParameteriv_BUFFER_MAPPED self._obj s
    (paramValue != GL_FALSE, self, s)
  else if caps.GLEW_EXT_direct_state_access then
    let paramValue := glGetNamedBufferParameteriv_BUFFER_MAPPED self._obj s
    (paramValue != GL_FALSE, self, s)
  else
    let (self1, s1) := self._bind s
    let paramValue := glGetBufferParameteriv_BUFFER_MAPPED bufferType s1
    let s2 := self1._unbind s1
    (paramValue != GL_FALSE, self1, s2)

/-- One call through `_buffer::_map_func_ptr`: the arguments it was given. -/
abbrev MapCall := buffer_type × GLuint × GLenum

/-- What a raw map call leaves behind: the returned pointer, the object, the driver state,
and the calls it made through `_buffer::_map_func_ptr`, in order. -/
structure MapResult (bufferType : buffer_type) where
  ret : VoidPtr
  self : buffer bufferType
  state : GLState
  invoked : List MapCall

/-- Embeds `buffer::raw_map()` (lines 222-229); `_map_func_ptr` is the function the static
pointer designates. -/
def buffer.raw_map {bufferType : buffer_type} (_map_func_ptr : MapFunc) (caps : Caps)
    (self : buffer bufferType) (s : GLState) : MapResult bufferType :=
  let (m, self1, s1) := self.is_mapped caps s
  if m then
    { ret := nullptr, self := self1, state := s1, invoked := [] }
  else
    let (p, s2) := _map_func_ptr bufferType self1._obj GL_READ_WRITE s1
    { ret := p, self := self1, state := s2,
      invoked := [(bufferType, self1._obj, GL_READ_WRITE)] }

/-- Embeds `buffer::raw_map_read()` (lines 231-238). -/
def buffer.raw_map_read {bufferType : buffer_type} (_map_func_ptr : MapFunc) (caps : Caps)
    (self : buffer bufferType) (s : GLState) : MapResult bufferType :=
  let (m, self1, s1) := self.is_mapped caps s
  if m then
    { ret := nullptr, self := self1, state := s1, invoked := [] }
  else
    let (p, s2) := _map_func_ptr bufferType self1._obj GL_READ_ONLY s1
    { ret := p, self := self1, state := s2,
      invoked := [(bufferType, self1._obj, GL_READ_ONLY)] }

/-- Embeds `buffer::raw_map_write()` (lines 240-247). -/
def buffer.raw_map_write {bufferType : buffer_type} (_map_func_ptr : MapFunc) (caps : Caps)
    (self : buffer bufferType) (s : GLState) : MapResult bufferType :=
  let (m, self1, s1) := self.is_mapped caps s
  if m then
    { ret := nullptr, self := self1, state := s1, invoked := [] }
  else
    let (p, s2) := _map_func_ptr bufferType self1._obj GL_WRITE_ONLY s1
    { ret := p, self := self1, state := s2,
      invoked := [(bufferType, self1._obj, GL_WRITE_ONLY)] }

/-- Embeds `buffer::unmap()` (lines 249-256). -/
def buffer.unmap {bufferType : buffer_type} (self : buffer bufferType) (s : GLState) :
    buffer bufferType × GLState :=
  let (self1, s1) := self._bind s
  let s2 := glUnmapBuffer bufferType s1
  (self1, self1._unbind s2)

/-! ## Context registry (lines 42-72) -/

/-- Library `std::map<void*, T>`: its entries in key order. -/
abbrev per_context_map (T : Type) := List (VoidPtr × T)

/-- Library `std::map::find(key)`: the entry an iterator to that key designates, `none` for
`end()`. -/
def std_map_find {T : Type} : per_context_map T → VoidPtr → Option (VoidPtr × T)
  | [], _ => none
  | x :: xs, key => if x.1 = key then some x else std_map_find xs key

/-- Library `std::map::insert` of a (key, value) pair: puts the entry at its place in key order; a key
that is already present keeps its entry. -/
def std_map_insert {T : Type} : per_context_map T → VoidPtr × T → per_context_map T
  | [], e => [e]
  | x :: xs, e =>
    if e.1 < x.1 then e :: x :: xs
    else if e.1 = x.1 then x :: xs
    else x :: std_map_insert xs e

/-- What the `return` statements of `get()` hand to a function declared to return `T`:
`defaultValue`, a `T`, at line 56; `*it`, the `std::pair` entry the iterator designates,
at line 59. -/
inductive returned (T : Type) where
  | value (v : T)
  | entry (e : VoidPtr × T)
  deriving DecidableEq, Repr

/-- Embeds `context_local<T, defaultValue>::get()` (lines 52-60); `current` is what
`get_current_context()` returns. -/
def context_local.get {T : Type} (defaultValue : T) (current : VoidPtr)
    (_perContextMap : per_context_map T) : returned T :=
  match std_map_find _perContextMap current with
  | none => .value defaultValue
  | some it => .entry it

/-- Embeds `context_local<T, defaultValue>::set(value)` (lines 62-72): the registry
afterwards.  Line 71, `*it = value;`, assigns a `T` to the `std::pair` entry, which takes
no assignment from a `T`; on that path no registry results. -/
def context_local.set {T : Type} (current : VoidPtr) (value : T)
    (_perContextMap : per_context_map T) : Option (per_context_map T) :=
  match std_map_find _perContextMap current with
  | none => some (std_map_insert _perContextMap (current, value))
  | some _ => none

/-! ## Mapped view (lines 82-126) -/

/-- Embeds `class mapped_buffer_data<T>`; addresses are byte addresses. -/
structure mapped_buffer_data where
  _rawData : Int
  _length : GLsizei
  _bufferType : buffer_type
  deriving DecidableEq, Repr

/-- Embeds `mapped_buffer_data<T>::operator[](n)` (lines 110-126, both overloads): the address of
the element the returned reference designates.  `sizeofT` is `sizeof(T)`.  The body of
the `if` is empty in the header. -/
def mapped_buffer_data.subscript (sizeofT : Int) (self : mapped_buffer_data) (n : Int) :
    Int :=
  let _check : Unit := if n > self._length then () else ()
  self._rawData + n * sizeofT

/-- Whether an element of `sizeofT` bytes at `addr` lies inside the view's region, the
`_length` elements that start at `_rawData`. -/
def mapped_buffer_data.in_region (sizeofT : Int) (self : mapped_buffer_data)
    (addr : Int) : Bool :=
  decide (self._rawData ≤ addr ∧ addr + sizeofT ≤ self._rawData + self._length * sizeofT)

/-- A 16-byte mapping at address 4096 viewed as `uint32_t`: four elements. -/
def view16 : mapped_buffer_data :=
  { _rawData := 4096, _length := 4, _bufferType := BUFFER_TYPE_ARRAY }

/-! ## Vocabulary of the properties -/

/-- The nine targets the properties call rebindable. -/
def rebindable : buffer_type → Bool
  | BUFFER_TYPE_ARRAY | BUFFER_TYPE_DISPATCH_INDIRECT | BUFFER_TYPE_ELEMENT_ARRAY
  | BUFFER_TYPE_PIXEL_PACK | BUFFER_TYPE_PIXEL_UNPACK | BUFFER_TYPE_SHADER_STORAGE
  | BUFFER_TYPE_TEXTURE | BUFFER_TYPE_TRANSFORM_FEEDBACK | BUFFER_TYPE_UNIFORM => true
  | _ => false

/-- The five targets named as having no bound-id query. -/
def without_query : buffer_type → Bool
  | BUFFER_TYPE_ATOMIC_COUNTER | BUFFER_TYPE_COPY_READ | BUFFER_TYPE_COPY_WRITE
  | BUFFER_TYPE_DRAW_INDIRECT | BUFFER_TYPE_QUERY => true
  | _ => false

/-- The three public raw mapping entry points. -/
inductive map_entry where
  | raw_map
  | raw_map_read
  | raw_map_write
  deriving DecidableEq, Repr

/-- The access mode each entry point is documented to request. -/
def map_entry.access : map_entry → GLenum
  | .raw_map => GL_READ_WRITE
  | .raw_map_read => GL_READ_ONLY
  | .raw_map_write => GL_WRITE_ONLY

/-- Calling the entry point `e` on a buffer object. -/
def buffer.call {bufferType : buffer_type} (e : map_entry) (f : MapFunc) (caps : Caps)
    (self : buffer bufferType) (s : GLState) : MapResult bufferType :=
  match e with
  | .raw_map => self.raw_map f caps s
  | .raw_map_read => self.raw_map_read f caps s
  | .raw_map_write => self.raw_map_write f caps s

/-- A strategy whose successful result leaves the mapped buffer flagged as mapped. -/
def marks_mapped (f : MapFunc) : Prop :=
  ∀ t obj access s, (f t obj access s).1 ≠ nullptr → (f t obj access s).2.mapped obj = true

/-- A driver with nothing bound, nothing mapped, no name handed out, and a mappable data
store for every buffer name. -/
def driver0 : GLState :=
  { bound := fun _ => 0, mapped := fun _ => false, names := [],
    dataStore := fun n => 4096 * n }

/-- Both capability flags absent: the fallback tier. -/
def caps_fallback : Caps := ⟨false, false⟩

/-- An atomic-counter buffer constructed on `driver0` and mapped through the fallback
strategy in the fallback tier. -/
def atomic_mapped : MapResult BUFFER_TYPE_ATOMIC_COUNTER :=
  let y := buffer.ctor BUFFER_TYPE_ATOMIC_COUNTER driver0
  y.1.raw_map _buffer._map_func_fallback caps_fallback y.2

/-- An array buffer constructed on `driver0` and mapped for writing through the fallback
strategy in the fallback tier. -/
def array_mapped : MapResult BUFFER_TYPE_ARRAY :=
  (buffer.ctor BUFFER_TYPE_ARRAY driver0).1.call .raw_map_write _buffer._map_func_fallback
    caps_fallback (buffer.ctor BUFFER_TYPE_ARRAY driver0).2

/-- A driver in which buffer X (name 1) was generated and bound to the array target. -/
def array_bound_X : GLState :=
  glBindBuffer BUFFER_TYPE_ARRAY 1 (glGenBuffers driver0).2

/-- The scenario "construct an array-target buffer Y, map it through entry point `e`,
unmap it": Y and the driver state at the end. -/
def construct_map_unmap (e : map_entry) (f : MapFunc) (caps : Caps) (s : GLState) :
    buffer BUFFER_TYPE_ARRAY × GLState :=
  let y := buffer.ctor BUFFER_TYPE_ARRAY s
  let r := y.1.call e f caps y.2
  r.self.unmap r.state

/-! ## Theorems -/

/-- C1: when the driver load succeeds, `init()` stores the Tier-1 strategy if the
Tier-1 flag is set, else the Tier-2 strategy if the Tier-2 flag is set, else the
fallback; the stored value does not depend on what was stored before, and running
`init()` again on its own result with the same flags gives the same result. -/
theorem init_selects_by_priority (caps : Caps) (prev : Option map_func) :
    (caps.GLEW_VERSION_4_5 = true →
        (init GLEW_OK caps prev).2 = some map_func._map_func_4_5) ∧
    (caps.GLEW_VERSION_4_5 = false → caps.GLEW_EXT_direct_state_access = true →
        (init GLEW_OK caps prev).2 = some map_func._map_func_ext) ∧
    (caps.GLEW_VERSION_4_5 = false → caps.GLEW_EXT_direct_state_access = false →
        (init GLEW_OK caps prev).2 = some map_func._map_func_fallback) ∧
    (∀ other : Option map_func, (init GLEW_OK caps other).2 = (init GLEW_OK caps prev).2) ∧
    init GLEW_OK caps (init GLEW_OK caps prev).2 = init GLEW_OK caps prev := by
  rcases caps with ⟨v, e⟩
  cases v <;> cases e <;> simp [init]

/-- Witness of C1 at the flags (absent, present) with the fallback stored before. -/
theorem init_selects_by_priority_witness :
    (init GLEW_OK ⟨false, true⟩ (some map_func._map_func_fallback)).2
      = some map_func._map_func_ext :=
  (init_selects_by_priority ⟨false, true⟩ (some map_func._map_func_fallback)).2.1 rfl rfl

/-- C2: a driver load that returns an error code `e` makes `init()` return `e`, keep
the stored strategy and ignore the capability flags; a successful load makes it
return the success code. -/
theorem init_propagates_error (e : GLenum) (caps : Caps) (prev : Option map_func)
    (he : e ≠ GLEW_OK) :
    init e caps prev = (e, prev) ∧
    (∀ caps2 : Caps, init e caps2 prev = init e caps prev) ∧
    (init GLEW_OK caps prev).1 = GLEW_OK := by
  refine ⟨by simp [init, he], fun caps2 => by simp [init, he], ?_⟩
  rcases caps with ⟨v, x⟩
  cases v <;> cases x <;> simp [init]

/-- Witness of C2 at error code 1 with the Tier-2 strategy stored before. -/
theorem init_propagates_error_witness :
    (1 : GLenum) ≠ GLEW_OK ∧
    init 1 ⟨true, true⟩ (some map_func._map_func_ext) = (1, some map_func._map_func_ext) :=
  ⟨by decide, (init_propagates_error 1 ⟨true, true⟩ (some map_func._map_func_ext)
    (by decide)).1⟩

/-! ### Bind / unbind bracket -/

theorem rebindable_or_without_query (t : buffer_type) :
    rebindable t = !without_query t := by
  cases t <;> rfl

theorem bind_obj {bufferType : buffer_type} (self : buffer bufferType) (s : GLState) :
    (self._bind s).1._obj = self._obj := by
  simp [buffer._bind]

theorem bind_state {bufferType : buffer_type} (self : buffer bufferType) (s : GLState) :
    (self._bind s).2 = glBindBuffer bufferType self._obj s := by
  simp [buffer._bind]

theorem bind_slot_of_rebindable {bufferType : buffer_type} (self : buffer bufferType)
    (s : GLState) (h : rebindable bufferType = true) :
    (self._bind s).1._lastBound = s.bound bufferType := by
  revert self
  cases bufferType <;> simp [rebindable] at h <;> intro self <;>
    simp [buffer._bind, glGetIntegerv_BUFFER_BINDING]

theorem bind_slot_of_without_query {bufferType : buffer_type} (self : buffer bufferType)
    (s : GLState) (h : without_query bufferType = true) :
    (self._bind s).1._lastBound = self._lastBound := by
  revert self
  cases bufferType <;> simp [without_query] at h <;> intro self <;>
    simp [buffer._bind]

theorem glBindBuffer_twice (t : buffer_type) (a b : GLuint) (s : GLState) :
    (glBindBuffer t b (glBindBuffer t a s)).bound = (glBindBuffer t b s).bound := by
  funext u
  by_cases hu : u = t <;> simp [glBindBuffer, hu]

theorem glBindBuffer_same (t : buffer_type) (s : GLState) :
    (glBindBuffer t (s.bound t) s).bound = s.bound := by
  funext u
  by_cases hu : u = t <;> simp [glBindBuffer, hu]

/-- C5: for each of the nine rebindable targets, `_bind()` stores the identity bound to
the target in the previously-bound slot and binds the object; the following `_unbind()`
binds the stored identity again, and every other target keeps its binding. -/
theorem bind_unbind_restores {bufferType : buffer_type} (self : buffer bufferType)
    (s : GLState) (h : rebindable bufferType = true) :
    (self._bind s).1._lastBound = s.bound bufferType ∧
    (self._bind s).2.bound bufferType = self._obj ∧
    ((self._bind s).1._unbind (self._bind s).2).bound bufferType = s.bound bufferType ∧
    (∀ t, t ≠ bufferType →
      (self._bind s).2.bound t = s.bound t ∧
      ((self._bind s).1._unbind (self._bind s).2).bound t = s.bound t) := by
  have hslot := bind_slot_of_rebindable self s h
  refine ⟨hslot, ?_, ?_, ?_⟩
  · simp [bind_state, glBindBuffer]
  · simp [buffer._unbind, hslot, glBindBuffer]
  · intro t ht
    simp [buffer._unbind, bind_state, glBindBuffer, ht]

/-- Witness of C5: an array buffer named 7 bound over identity 3. -/
theorem bind_unbind_restores_witness :
    rebindable BUFFER_TYPE_ARRAY = true ∧
    ((({ _obj := 7 } : buffer BUFFER_TYPE_ARRAY)._bind
        (glBindBuffer BUFFER_TYPE_ARRAY 3 driver0)).1._unbind
      (({ _obj := 7 } : buffer BUFFER_TYPE_ARRAY)._bind
        (glBindBuffer BUFFER_TYPE_ARRAY 3 driver0)).2).bound BUFFER_TYPE_ARRAY
      = (glBindBuffer BUFFER_TYPE_ARRAY 3 driver0).bound BUFFER_TYPE_ARRAY :=
  ⟨rfl, (bind_unbind_restores ({ _obj := 7 } : buffer BUFFER_TYPE_ARRAY)
    (glBindBuffer BUFFER_TYPE_ARRAY 3 driver0) rfl).2.2.1⟩

/-- C10: for the five targets without a bound-id query case, `_bind()` leaves the
previously-bound slot as it was, so after `_bind()` and `_unbind()` the target is bound to
the value the slot held before (0 on a freshly constructed object), and a prior binding
different from that value is not restored. -/
theorem bind_unbind_without_query {bufferType : buffer_type} (self : buffer bufferType)
    (s : GLState) (h : without_query bufferType = true) :
    (self._bind s).1._lastBound = self._lastBound ∧
    ((self._bind s).1._unbind (self._bind s).2).bound bufferType = self._lastBound ∧
    (s.bound bufferType ≠ self._lastBound →
      ((self._bind s).1._unbind (self._bind s).2).bound bufferType ≠ s.bound bufferType) ∧
    (buffer.ctor bufferType s).1._lastBound = 0 := by
  have hslot := bind_slot_of_without_query self s h
  have hb : ((self._bind s).1._unbind (self._bind s).2).bound bufferType = self._lastBound := by
    simp [buffer._unbind, hslot, glBindBuffer]
  refine ⟨hslot, hb, ?_, ?_⟩
  · intro hne heq
    exact hne (heq.symm.trans hb)
  · simp [buffer.ctor]

/-- Witness of C10: a fresh query buffer named 7 while identity 3 is bound. -/
theorem bind_unbind_without_query_witness :
    without_query BUFFER_TYPE_QUERY = true ∧
    (glBindBuffer BUFFER_TYPE_QUERY 3 driver0).bound BUFFER_TYPE_QUERY ≠ 0 ∧
    ((({ _obj := 7 } : buffer BUFFER_TYPE_QUERY)._bind
        (glBindBuffer BUFFER_TYPE_QUERY 3 driver0)).1._unbind
      (({ _obj := 7 } : buffer BUFFER_TYPE_QUERY)._bind
        (glBindBuffer BUFFER_TYPE_QUERY 3 driver0)).2).bound BUFFER_TYPE_QUERY
      ≠ (glBindBuffer BUFFER_TYPE_QUERY 3 driver0).bound BUFFER_TYPE_QUERY :=
  ⟨rfl, by decide, (bind_unbind_without_query ({ _obj := 7 } : buffer BUFFER_TYPE_QUERY)
    (glBindBuffer BUFFER_TYPE_QUERY 3 driver0) rfl).2.2.1 (by decide)⟩

/-! ### Is-mapped query and the raw map calls -/

theorem is_mapped_answer {bufferType : buffer_type} (caps : Caps) (self : buffer bufferType)
    (s : GLState) : (self.is_mapped caps s).1 = s.mapped self._obj := by
  rcases caps with ⟨v, x⟩
  cases v <;> cases x <;> cases hm : s.mapped self._obj <;>
    simp [buffer.is_mapped, buffer._bind, glGetNamedBufferParameteriv_BUFFER_MAPPED,
      glGetBufferParameteriv_BUFFER_MAPPED, glBindBuffer, GL_TRUE, GL_FALSE, hm]

theorem is_mapped_obj {bufferType : buffer_type} (caps : Caps) (self : buffer bufferType)
    (s : GLState) : (self.is_mapped caps s).2.1._obj = self._obj := by
  rcases caps with ⟨v, x⟩
  cases v <;> cases x <;> simp [buffer.is_mapped, buffer._bind]

theorem is_mapped_keeps_flags {bufferType : buffer_type} (caps : Caps)
    (self : buffer bufferType) (s : GLState) :
    (self.is_mapped caps s).2.2.mapped = s.mapped := by
  rcases caps with ⟨v, x⟩
  cases v <;> cases x <;> simp [buffer.is_mapped, buffer._bind, buffer._unbind, glBindBuffer]

theorem is_mapped_keeps_bindings {bufferType : buffer_type} (caps : Caps)
    (self : buffer bufferType) (s : GLState)
    (h : caps.GLEW_VERSION_4_5 = true ∨ caps.GLEW_EXT_direct_state_access = true ∨
      rebindable bufferType = true) :
    (self.is_mapped caps s).2.2.bound = s.bound := by
  rcases caps with ⟨v, x⟩
  cases v <;> cases x <;> simp at h <;> try simp [buffer.is_mapped]
  have hslot := bind_slot_of_rebindable self s h
  simp only [buffer._unbind, hslot, bind_state, glBindBuffer_twice, glBindBuffer_same]

theorem is_mapped_keeps_other_targets {bufferType : buffer_type} (caps : Caps)
    (self : buffer bufferType) (s : GLState) (t : buffer_type) (ht : t ≠ bufferType) :
    (self.is_mapped caps s).2.2.bound t = s.bound t := by
  rcases caps with ⟨v, x⟩
  cases v <;> cases x <;>
    simp [buffer.is_mapped, buffer._bind, buffer._unbind, glBindBuffer, ht]

theorem is_mapped_keeps_names_and_stores {bufferType : buffer_type} (caps : Caps)
    (self : buffer bufferType) (s : GLState) :
    (self.is_mapped caps s).2.2.names = s.names ∧
    (self.is_mapped caps s).2.2.dataStore = s.dataStore := by
  rcases caps with ⟨v, x⟩
  cases v <;> cases x <;>
    simp [buffer.is_mapped, buffer._bind, buffer._unbind, glBindBuffer]

theorem is_mapped_keeps_object_direct {bufferType : buffer_type} (caps : Caps)
    (self : buffer bufferType) (s : GLState)
    (h : caps.GLEW_VERSION_4_5 = true ∨ caps.GLEW_EXT_direct_state_access = true) :
    (self.is_mapped caps s).2.1 = self := by
  rcases caps with ⟨v, x⟩
  cases v <;> cases x <;> simp at h <;> simp [buffer.is_mapped]

theorem is_mapped_slot_fallback {bufferType : buffer_type} (caps : Caps)
    (self : buffer bufferType) (s : GLState)
    (hv : caps.GLEW_VERSION_4_5 = false) (hx : caps.GLEW_EXT_direct_state_access = false)
    (h : rebindable bufferType = true) :
    (self.is_mapped caps s).2.1 = { _obj := self._obj, _lastBound := s.bound bufferType } := by
  rcases caps with ⟨v, x⟩
  simp only at hv hx
  subst hv hx
  have hslot := bind_slot_of_rebindable self s h
  have hobj := bind_obj self s
  simp only [buffer.is_mapped, Bool.false_eq_true, if_false]
  rcases hb : (self._bind s).1 with ⟨o, l⟩
  rw [hb] at hslot hobj
  simp only at hslot hobj
  rw [hslot, hobj]

theorem call_eq {bufferType : buffer_type} (e : map_entry) (f : MapFunc) (caps : Caps)
    (self : buffer bufferType) (s : GLState) :
    self.call e f caps s =
      if (self.is_mapped caps s).1 then
        { ret := nullptr, self := (self.is_mapped caps s).2.1,
          state := (self.is_mapped caps s).2.2, invoked := [] }
      else
        { ret := (f bufferType (self.is_mapped caps s).2.1._obj e.access
            (self.is_mapped caps s).2.2).1,
          self := (self.is_mapped caps s).2.1,
          state := (f bufferType (self.is_mapped caps s).2.1._obj e.access
            (self.is_mapped caps s).2.2).2,
          invoked := [(bufferType, (self.is_mapped caps s).2.1._obj, e.access)] } := by
  cases e <;> rfl

theorem fallback_marks_mapped : marks_mapped _buffer._map_func_fallback := by
  intro t obj access s h
  simp only [_buffer._map_func_fallback, glMapBuffer, glMapNamedBuffer] at h ⊢
  split
  · rename_i hc
    simp [hc] at h
  · simp [glBindBuffer]

theorem named_map_marks_mapped (obj : GLuint) (access : GLenum) (s : GLState)
    (h : (glMapNamedBuffer obj access s).1 ≠ nullptr) :
    (glMapNamedBuffer obj access s).2.mapped obj = true := by
  simp only [glMapNamedBuffer] at h ⊢
  split
  · rename_i hc
    simp [hc] at h
  · simp

theorem strategies_mark_mapped (k : map_func) : marks_mapped k.deref := by
  cases k
  · exact fun _ obj access s h => named_map_marks_mapped obj access s h
  · exact fun _ obj access s h => named_map_marks_mapped obj access s h
  · exact fallback_marks_mapped

/-- C3 (counterexample): an atomic-counter buffer constructed and mapped in the fallback
tier reports `is_mapped()`, and the refused `raw_map()` leaves the atomic-counter target
bound to 0 although the buffer itself (name 1) was bound before the call. -/
theorem raw_map_refusal_rebinds_counterexample :
    (atomic_mapped.self.is_mapped caps_fallback atomic_mapped.state).1 = true ∧
    (atomic_mapped.self.raw_map _buffer._map_func_fallback caps_fallback
      atomic_mapped.state).ret = nullptr ∧
    atomic_mapped.state.bound BUFFER_TYPE_ATOMIC_COUNTER = 1 ∧
    (atomic_mapped.self.raw_map _buffer._map_func_fallback caps_fallback
      atomic_mapped.state).state.bound BUFFER_TYPE_ATOMIC_COUNTER = 0 := by
  decide

/-- C3 (amended): if `is_mapped()` is true, each of `raw_map()`, `raw_map_read()` and
`raw_map_write()` returns null, makes no call through the strategy pointer, and keeps the
object's device identity, the mapped flag of every buffer, the handed-out names, the data
stores and the binding of every target other than the object's own.  In Tier 1 and in
Tier 2 the object and the bindings of all targets are unchanged; in the fallback tier,
for the nine rebindable targets, the bindings of all targets are unchanged and of the
object only the previously-bound slot is overwritten, with the identity bound to the
target.  Hence, for a strategy whose success flags the buffer as mapped, a map call that
follows a successful one is refused in every tier. -/
theorem raw_map_refuses_when_mapped {bufferType : buffer_type} (f : MapFunc) (caps : Caps)
    (self : buffer bufferType) (s : GLState) (e : map_entry) :
    ((self.is_mapped caps s).1 = true →
      (self.call e f caps s).ret = nullptr ∧
      (self.call e f caps s).invoked = [] ∧
      (self.call e f caps s).state.mapped = s.mapped ∧
      ((caps.GLEW_VERSION_4_5 = true ∨ caps.GLEW_EXT_direct_state_access = true ∨
          rebindable bufferType = true) →
        (self.call e f caps s).state.bound = s.bound) ∧
      (self.call e f caps s).self._obj = self._obj ∧
      (∀ t, t ≠ bufferType → (self.call e f caps s).state.bound t = s.bound t) ∧
      (self.call e f caps s).state.names = s.names ∧
      (self.call e f caps s).state.dataStore = s.dataStore ∧
      ((caps.GLEW_VERSION_4_5 = true ∨ caps.GLEW_EXT_direct_state_access = true) →
        (self.call e f caps s).self = self) ∧
      (caps.GLEW_VERSION_4_5 = false → caps.GLEW_EXT_direct_state_access = false →
        rebindable bufferType = true →
        (self.call e f caps s).self
          = { _obj := self._obj, _lastBound := s.bound bufferType })) ∧
    (marks_mapped f → (self.call e f caps s).ret ≠ nullptr →
      ∀ e2 : map_entry,
        ((self.call e f caps s).self.call e2 f caps (self.call e f caps s).state).ret
          = nullptr ∧
        ((self.call e f caps s).self.call e2 f caps (self.call e f caps s).state).invoked
          = []) := by
  constructor
  · intro h
    rw [call_eq, if_pos h]
    exact ⟨rfl, rfl, is_mapped_keeps_flags caps self s,
      fun hc => is_mapped_keeps_bindings caps self s hc,
      is_mapped_obj caps self s,
      fun t ht => is_mapped_keeps_other_targets caps self s t ht,
      (is_mapped_keeps_names_and_stores caps self s).1,
      (is_mapped_keeps_names_and_stores caps self s).2,
      fun hc => is_mapped_keeps_object_direct caps self s hc,
      fun hv hx hr => is_mapped_slot_fallback caps self s hv hx hr⟩
  · intro hf hret e2
    have hfirst : (self.is_mapped caps s).1 = false := by
      cases hq : (self.is_mapped caps s).1
      · rfl
      · rw [call_eq, if_pos hq] at hret
        exact absurd rfl hret
    have hsecond : ((self.call e f caps s).self.is_mapped caps
        (self.call e f caps s).state).1 = true := by
      rw [is_mapped_answer]
      rw [call_eq] at hret ⊢
      simp only [hfirst, Bool.false_eq_true, if_false] at hret ⊢
      exact hf _ _ _ _ hret
    rw [call_eq ( e2), if_pos hsecond]
    exact ⟨rfl, rfl⟩

/-- Witness of C3 (amended): an array buffer constructed on `driver0` and mapped through
the fallback strategy reports `is_mapped()`; a following `raw_map()` is refused, keeps the
array binding and the device identity and writes the bound identity into the slot, and a
`raw_map_read()` after the successful `raw_map_write()` is refused. -/
theorem raw_map_refuses_when_mapped_witness :
    ((array_mapped.self.is_mapped caps_fallback array_mapped.state).1 = true ∧
      rebindable BUFFER_TYPE_ARRAY = true ∧
      (array_mapped.self.call .raw_map _buffer._map_func_fallback caps_fallback
        array_mapped.state).ret = nullptr ∧
      (array_mapped.self.call .raw_map _buffer._map_func_fallback caps_fallback
        array_mapped.state).state.bound = array_mapped.state.bound ∧
      (array_mapped.self.call .raw_map _buffer._map_func_fallback caps_fallback
        array_mapped.state).self
        = { _obj := array_mapped.self._obj,
            _lastBound := array_mapped.state.bound BUFFER_TYPE_ARRAY }) ∧
    (marks_mapped _buffer._map_func_fallback ∧
      array_mapped.ret ≠ nullptr ∧
      (array_mapped.self.call .raw_map_read _buffer._map_func_fallback caps_fallback
        array_mapped.state).ret = nullptr) :=
  ⟨⟨by decide, rfl,
      ((raw_map_refuses_when_mapped _buffer._map_func_fallback caps_fallback
        array_mapped.self array_mapped.state .raw_map).1 (by decide)).1,
      ((raw_map_refuses_when_mapped _buffer._map_func_fallback caps_fallback
        array_mapped.self array_mapped.state .raw_map).1 (by decide)).2.2.2.1
        (Or.inr (Or.inr rfl)),
      ((raw_map_refuses_when_mapped _buffer._map_func_fallback caps_fallback
        array_mapped.self array_mapped.state .raw_map).1 (by decide)).2.2.2.2.2.2.2.2.2
        rfl rfl rfl⟩,
    ⟨fallback_marks_mapped, by decide,
      ((raw_map_refuses_when_mapped _buffer._map_func_fallback caps_fallback
        (buffer.ctor BUFFER_TYPE_ARRAY driver0).1 (buffer.ctor BUFFER_TYPE_ARRAY driver0).2
        .raw_map_write).2 fallback_marks_mapped (by decide) .raw_map_read).1⟩⟩

/-- C9: when `is_mapped()` is false, `raw_map()`, `raw_map_read()` and `raw_map_write()`
each make exactly one call through the strategy pointer, with the object's target, its
device identity and the access mode read-write, read-only and write-only respectively,
on the driver state `is_mapped()` left, and return that call's pointer and driver state
as they are, a null pointer included. -/
theorem raw_map_dispatches {bufferType : buffer_type} (f : MapFunc) (caps : Caps)
    (self : buffer bufferType) (s : GLState) (h : (self.is_mapped caps s).1 = false) :
    (((self.raw_map f caps s).ret, (self.raw_map f caps s).state)
        = f bufferType self._obj GL_READ_WRITE (self.is_mapped caps s).2.2 ∧
      (self.raw_map f caps s).invoked = [(bufferType, self._obj, GL_READ_WRITE)]) ∧
    (((self.raw_map_read f caps s).ret, (self.raw_map_read f caps s).state)
        = f bufferType self._obj GL_READ_ONLY (self.is_mapped caps s).2.2 ∧
      (self.raw_map_read f caps s).invoked = [(bufferType, self._obj, GL_READ_ONLY)]) ∧
    (((self.raw_map_write f caps s).ret, (self.raw_map_write f caps s).state)
        = f bufferType self._obj GL_WRITE_ONLY (self.is_mapped caps s).2.2 ∧
      (self.raw_map_write f caps s).invoked = [(bufferType, self._obj, GL_WRITE_ONLY)]) := by
  have hobj := is_mapped_obj caps self s
  have h1 := call_eq .raw_map f caps self s
  have h2 := call_eq .raw_map_read f caps self s
  have h3 := call_eq .raw_map_write f caps self s
  simp only [buffer.call, h, Bool.false_eq_true, if_false, hobj, map_entry.access] at h1 h2 h3
  rw [h1, h2, h3]
  exact ⟨⟨rfl, rfl⟩, ⟨rfl, rfl⟩, ⟨rfl, rfl⟩⟩

/-- Witness of C9: a freshly constructed array buffer on `driver0`, Tier 1 flags, and the
Tier-1 strategy. -/
theorem raw_map_dispatches_witness :
    ((buffer.ctor BUFFER_TYPE_ARRAY driver0).1.is_mapped ⟨true, false⟩
      (buffer.ctor BUFFER_TYPE_ARRAY driver0).2).1 = false ∧
    ((buffer.ctor BUFFER_TYPE_ARRAY driver0).1.raw_map_read _buffer._map_func_4_5
      ⟨true, false⟩ (buffer.ctor BUFFER_TYPE_ARRAY driver0).2).invoked
      = [(BUFFER_TYPE_ARRAY, (buffer.ctor BUFFER_TYPE_ARRAY driver0).1._obj, GL_READ_ONLY)] :=
  ⟨by decide, (raw_map_dispatches _buffer._map_func_4_5 ⟨true, false⟩
    (buffer.ctor BUFFER_TYPE_ARRAY driver0).1 (buffer.ctor BUFFER_TYPE_ARRAY driver0).2
    (by decide)).2.1.2⟩

theorem unmap_obj {bufferType : buffer_type} (self : buffer bufferType) (s : GLState) :
    (self.unmap s).1._obj = self._obj := by
  simp [buffer.unmap, buffer._bind]

theorem unmap_clears_flag {bufferType : buffer_type} (self : buffer bufferType)
    (s : GLState) : (self.unmap s).2.mapped self._obj = false := by
  simp [buffer.unmap, buffer._unbind, buffer._bind, glUnmapBuffer, glBindBuffer]

/-- C8: for a buffer that is mapped, in every tier, `is_mapped()` reports true; after
`unmap()` the driver no longer flags it as mapped and `is_mapped()` reports false; a
following call of any of the three raw map entry points is not refused: it makes exactly
one call through the strategy pointer, with that entry point's access mode, and returns
that call's result. -/
theorem unmap_then_map {bufferType : buffer_type} (f : MapFunc) (caps : Caps)
    (self : buffer bufferType) (s : GLState) (e : map_entry)
    (h : s.mapped self._obj = true) :
    (self.is_mapped caps s).1 = true ∧
    (self.unmap s).2.mapped self._obj = false ∧
    ((self.unmap s).1.is_mapped caps (self.unmap s).2).1 = false ∧
    (((self.unmap s).1.call e f caps (self.unmap s).2).ret,
        ((self.unmap s).1.call e f caps (self.unmap s).2).state)
      = f bufferType self._obj e.access
          ((self.unmap s).1.is_mapped caps (self.unmap s).2).2.2 ∧
    ((self.unmap s).1.call e f caps (self.unmap s).2).invoked
      = [(bufferType, self._obj, e.access)] := by
  have hq : ((self.unmap s).1.is_mapped caps (self.unmap s).2).1 = false := by
    rw [is_mapped_answer, unmap_obj, unmap_clears_flag]
  have hobj : ((self.unmap s).1.is_mapped caps (self.unmap s).2).2.1._obj = self._obj := by
    rw [is_mapped_obj, unmap_obj]
  refine ⟨(is_mapped_answer caps self s).trans h, unmap_clears_flag self s, hq, ?_, ?_⟩
  · rw [call_eq, hq, hobj]
    rfl
  · rw [call_eq, hq, hobj]
    rfl

/-- Witness of C8: the array buffer mapped for writing through the fallback strategy is
unmapped and then mapped for reading. -/
theorem unmap_then_map_witness :
    array_mapped.state.mapped array_mapped.self._obj = true ∧
    ((array_mapped.self.unmap array_mapped.state).1.is_mapped caps_fallback
      (array_mapped.self.unmap array_mapped.state).2).1 = false ∧
    ((array_mapped.self.unmap array_mapped.state).1.call .raw_map_read
      _buffer._map_func_fallback caps_fallback
      (array_mapped.self.unmap array_mapped.state).2).invoked
      = [(BUFFER_TYPE_ARRAY, array_mapped.self._obj, GL_READ_ONLY)] :=
  ⟨by decide,
    (unmap_then_map _buffer._map_func_fallback caps_fallback array_mapped.self
      array_mapped.state .raw_map_read (by decide)).2.2.1,
    (unmap_then_map _buffer._map_func_fallback caps_fallback array_mapped.self
      array_mapped.state .raw_map_read (by decide)).2.2.2.2⟩

/-! ### Construction, map and unmap on the array target -/

theorem le_foldr_max (l : List Nat) (n : Nat) (h : n ∈ l) : n ≤ l.foldr max 0 := by
  induction l with
  | nil => cases h
  | cons x xs ih =>
    rcases List.mem_cons.mp h with rfl | hx
    · exact le_max_left _ _
    · exact le_trans (ih hx) (le_max_right _ _)

theorem glGenBuffers_fresh (s : GLState) :
    (glGenBuffers s).1 ≠ 0 ∧ (glGenBuffers s).1 ∉ s.names := by
  refine ⟨Nat.succ_ne_zero _, fun hmem => ?_⟩
  have := le_foldr_max s.names _ hmem
  simp only [glGenBuffers] at this
  omega

theorem fallback_binds (t : buffer_type) (obj : GLuint) (access : GLenum) (s : GLState) :
    (_buffer._map_func_fallback t obj access s).2.bound t = obj := by
  simp only [_buffer._map_func_fallback, glMapBuffer, glMapNamedBuffer]
  split <;> simp [glBindBuffer]

theorem unmap_restores_rebindable {bufferType : buffer_type} (self : buffer bufferType)
    (s : GLState) (h : rebindable bufferType = true) :
    (self.unmap s).2.bound bufferType = s.bound bufferType := by
  have hslot := bind_slot_of_rebindable self s h
  simp [buffer.unmap, buffer._unbind, hslot, glBindBuffer, glUnmapBuffer]

theorem ctor_forgets_binding (t : buffer_type) (X1 X2 : GLuint) (s : GLState) :
    buffer.ctor t (glBindBuffer t X1 s) = buffer.ctor t (glBindBuffer t X2 s) := by
  simp only [buffer.ctor, glGenBuffers, glBindBuffer, Prod.mk.injEq, GLState.mk.injEq,
    true_and, and_true]
  funext u
  by_cases hu : u = t <;> simp [hu]

/-- C6 (the code at the failing input): with buffer X (name 1) bound to the array target,
the constructor of Y alone leaves the target bound to Y (name 2); after mapping Y through
the fallback strategy in the fallback tier and unmapping it the target is still bound to
Y, not to X.  For every strategy, tier and entry point the outcome of the sequence is the
same whatever was bound to the array target before, and with the fallback strategy in the
fallback tier the target ends bound to Y, a non-zero name not handed out before. -/
theorem construct_map_unmap_loses_binding :
    array_bound_X.bound BUFFER_TYPE_ARRAY = 1 ∧
    (buffer.ctor BUFFER_TYPE_ARRAY array_bound_X).1._obj = 2 ∧
    (buffer.ctor BUFFER_TYPE_ARRAY array_bound_X).2.bound BUFFER_TYPE_ARRAY = 2 ∧
    (construct_map_unmap .raw_map _buffer._map_func_fallback caps_fallback
      array_bound_X).2.bound BUFFER_TYPE_ARRAY = 2 ∧
    (construct_map_unmap .raw_map _buffer._map_func_fallback caps_fallback
      array_bound_X).2.bound BUFFER_TYPE_ARRAY ≠ array_bound_X.bound BUFFER_TYPE_ARRAY ∧
    (∀ (e : map_entry) (f : MapFunc) (caps : Caps) (s : GLState) (X1 X2 : GLuint),
      construct_map_unmap e f caps (glBindBuffer BUFFER_TYPE_ARRAY X1 s)
        = construct_map_unmap e f caps (glBindBuffer BUFFER_TYPE_ARRAY X2 s)) ∧
    (∀ (e : map_entry) (s : GLState),
      (construct_map_unmap e _buffer._map_func_fallback caps_fallback s).2.bound
          BUFFER_TYPE_ARRAY
        = (buffer.ctor BUFFER_TYPE_ARRAY s).1._obj ∧
      (buffer.ctor BUFFER_TYPE_ARRAY s).1._obj ≠ 0 ∧
      (buffer.ctor BUFFER_TYPE_ARRAY s).1._obj ∉ s.names) := by
  refine ⟨by decide, by decide, by decide, by decide, by decide, ?_, ?_⟩
  · intro e f caps s X1 X2
    simp only [construct_map_unmap]
    rw [ctor_forgets_binding BUFFER_TYPE_ARRAY X1 X2 s]
  · intro e s
    have hnew : (buffer.ctor BUFFER_TYPE_ARRAY s).1._obj = (glGenBuffers s).1 := rfl
    have hbound : ((buffer.ctor BUFFER_TYPE_ARRAY s).1.call e _buffer._map_func_fallback
        caps_fallback (buffer.ctor BUFFER_TYPE_ARRAY s).2).state.bound BUFFER_TYPE_ARRAY
        = (buffer.ctor BUFFER_TYPE_ARRAY s).1._obj := by
      rw [call_eq]
      split
      · rw [@is_mapped_keeps_bindings BUFFER_TYPE_ARRAY _ _ _ (Or.inr (Or.inr rfl))]
        simp [buffer.ctor, glBindBuffer]
      · simp only [fallback_binds, is_mapped_obj]
    refine ⟨?_, ?_, ?_⟩
    · simp only [construct_map_unmap]
      rw [@unmap_restores_rebindable BUFFER_TYPE_ARRAY _ _ rfl, hbound]
    · rw [hnew]; exact (glGenBuffers_fresh s).1
    · rw [hnew]; exact (glGenBuffers_fresh s).2

/-! ### Context registry -/

/-- C7 (the code at the failing input): with `T = int` and the empty registry, `set(7)`
under handle 1 and `set(9)` under handle 2 insert one entry each; `get()` under handle 1
then hands back the entry (1, 7) that `*it` designates, not the value 7; a further `set`
under handle 1 reaches `*it = value` and yields no registry.  The same holds on every
registry that has an entry for the current handle. -/
theorem context_local_get_returns_entry :
    context_local.set 1 (7 : Int) [] = some [(1, 7)] ∧
    context_local.set 2 (9 : Int) [(1, 7)] = some [(1, 7), (2, 9)] ∧
    context_local.get (0 : Int) 1 [(1, 7), (2, 9)] = returned.entry (1, 7) ∧
    context_local.get (0 : Int) 1 [(1, 7), (2, 9)] ≠ returned.value 7 ∧
    context_local.set 1 (8 : Int) [(1, 7), (2, 9)] = none ∧
    (∀ (m : per_context_map Int) (c : VoidPtr) (d a : Int) (e : VoidPtr × Int),
      std_map_find m c = some e →
        context_local.get d c m = returned.entry e ∧
        context_local.get d c m ≠ returned.value a ∧
        context_local.set c a m = none) := by
  refine ⟨by decide, by decide, by decide, by decide, by decide, ?_⟩
  intro m c d a e h
  simp [context_local.get, context_local.set, h]

/-! ### Mapped view -/

/-- C4 (the code at the failing input): on a 16-byte mapping viewed as `uint32_t` (four
elements) index 3 designates the element at byte offset 12, inside the region; index 4 is
not refused: `operator[]` designates the address 16 bytes past the base, outside the
mapped region, and so it does for every index. -/
theorem subscript_past_end_not_rejected :
    view16.subscript 4 3 = 4096 + 3 * 4 ∧
    view16.in_region 4 (view16.subscript 4 3) = true ∧
    view16.subscript 4 4 = 4096 + 4 * 4 ∧
    view16.in_region 4 (view16.subscript 4 4) = false ∧
    (∀ n : Int, view16.subscript 4 n = 4096 + n * 4) := by
  refine ⟨by decide, by decide, by decide, by decide, fun n => rfl⟩

end ogl
